import Mathlib

/-!
Verification of the EntityEngine benchmark harness (src/main.rs).

The program embeds a Lua interpreter (via the mlua crate), registers three
numeric callbacks (`length_fast`, `distance`, `complex_calc`), runs a
benchmark script, and decodes the return value of the script into the host
record `BenchmarkResult` through the `FromLua` implementation at
src/main.rs lines 10-56.  The statistics step divides the elapsed
`Duration` by `result.operations` (src/main.rs line 138).

Shallow embedding choices:
* A dynamic Lua value is the inductive `LuaValue`; Lua numbers (64-bit
  floats) and integers are modelled as `ℚ` and `Int` payloads, which is
  faithful for every value the decoder claims exercise (the decoder never
  performs float arithmetic, it only transports or integer-checks values).
* The mlua crate is a dependency whose source is not part of this
  repository; its `FromLua` conversions for `f64` and `u32` and the
  `Display` form of its `FromLuaConversionError` variant are modelled
  from the documented mlua semantics: `coerce_number` for `f64`, and for
  `u32` the per-kind num_traits casts of the `lua_convert_int` macro,
  where a Lua float is truncated toward zero and accepted on the
  exclusive range `(-1, 2 ^ 32)`.  String-to-number coercion is not
  modelled because no claim exercises string-valued fields.
* The three registered callbacks operate on `f64`; they are modelled
  over `ℝ` with exact `Real.sqrt`, `Real.cos`, `Real.sin`, `Real.tan`.
* `Duration` is modelled as its total length in nanoseconds (`Nat`);
  the Rust division of a `Duration` by a `u32` calls `checked_div` and
  panics on a zero divisor, modelled as an `Option Nat` that is `none`
  exactly on the panic.
-/

namespace EntityEngine

/-- A dynamic Lua value as surfaced by mlua (`mlua::Value`), restricted to
the payload kinds the benchmark can produce.  A Lua table is modelled as an
association list from string keys to values. -/
inductive LuaValue where
  | nil : LuaValue
  | boolean (b : Bool) : LuaValue
  | integer (n : Int) : LuaValue
  | number (q : ℚ) : LuaValue
  | str (s : String) : LuaValue
  | table (fields : List (String × LuaValue)) : LuaValue

/-- The host record decoded from the script result (src/main.rs lines 4-8).
The field `operations` is a Rust `u32`; the decoder only constructs values
below `2 ^ 32`, so `Nat` carries it. -/
structure BenchmarkResult where
  result : ℚ
  operations : Nat
  max_value : ℚ
deriving DecidableEq

/-- The only mlua error variant the decoder produces or wraps:
`Error::FromLuaConversionError` with fields `from` (written `frm`, since
`from` is reserved in Lean), `to` (written `toTy`) and `message`. -/
inductive LuaError where
  | fromLuaConversionError (frm : String) (toTy : String) (message : Option String) : LuaError
deriving DecidableEq

/-- `mlua::Value::type_name` for the modelled value kinds. -/
def LuaValue.type_name : LuaValue → String
  | .nil => "nil"
  | .boolean _ => "boolean"
  | .integer _ => "integer"
  | .number _ => "number"
  | .str _ => "string"
  | .table _ => "table"

/-- Whether the value is a Lua table: the shape test of the `match` in
`BenchmarkResult::from_lua` (src/main.rs line 12). -/
def LuaValue.isTable : LuaValue → Bool
  | .table _ => true
  | _ => false

/-- Modelled mlua `Display` of `FromLuaConversionError`:
`error converting Lua <from> to <to>`, with the detail message appended in
parentheses when present.  This is the text the `format!` calls of the
decoder interpolate for the underlying cause. -/
def displayError : LuaError → String
  | .fromLuaConversionError f t none => "error converting Lua " ++ f ++ " to " ++ t
  | .fromLuaConversionError f t (some m) =>
      "error converting Lua " ++ f ++ " to " ++ t ++ " (" ++ m ++ ")"

/-- Lua table field lookup (`Table::get` without metatables): a key that is
absent yields `nil`, exactly as Lua indexing does. -/
def tableGet (fields : List (String × LuaValue)) (k : String) : LuaValue :=
  match fields.lookup k with
  | some v => v
  | none => .nil

/-- Modelled mlua `coerce_number`: Lua integers widen to floats, floats pass
through, everything else is not a number. -/
def coerce_number : LuaValue → Option ℚ
  | .integer n => some (n : ℚ)
  | .number q => some q
  | _ => none

/-- Modelled `FromLua` for `f64`, as invoked by `table.get::<f64>(key)` in
the decoder. -/
def getF64 (v : LuaValue) : Except LuaError ℚ :=
  match coerce_number v with
  | some q => Except.ok q
  | none => Except.error (.fromLuaConversionError v.type_name "f64"
      (some "expected number or string coercible to number"))

/-- Modelled num_traits cast from a Lua integer (i64) to `u32`: succeeds
exactly on `0 ≤ n < 2 ^ 32`. -/
def cast_int_u32 (n : Int) : Option Nat :=
  if 0 ≤ n ∧ n < 4294967296 then some n.toNat else none

/-- Modelled num_traits cast from a Lua float (f64) to `u32`: a float as
an int truncates toward zero, so the cast succeeds exactly on the
exclusive range `-1 < q < 2 ^ 32` and yields the truncation of `q`
(`Int.tdiv` rounds toward zero; the denominator of a rational is
positive). -/
def cast_number_u32 (q : ℚ) : Option Nat :=
  if -1 < q ∧ q < 4294967296 then some (q.num.tdiv q.den).toNat else none

/-- Modelled `FromLua` for `u32` (the mlua `lua_convert_int` macro), as
invoked by `table.get::<u32>(key)` in the decoder: a Lua integer or a Lua
float is converted with the num_traits cast for its kind, failing as out
of range when the cast refuses; any other value is not coercible. -/
def getU32 (v : LuaValue) : Except LuaError Nat :=
  match v with
  | .integer n =>
      match cast_int_u32 n with
      | some u => Except.ok u
      | none => Except.error (.fromLuaConversionError "integer" "u32"
          (some "out of range"))
  | .number q =>
      match cast_number_u32 q with
      | some u => Except.ok u
      | none => Except.error (.fromLuaConversionError "number" "u32"
          (some "out of range"))
  | v => Except.error (.fromLuaConversionError v.type_name "u32"
      (some "expected number or string coercible to integer"))

/-- The message built by the `map_err` closures of the decoder:
`Failed to get <field> field: <cause>` with the field name in single
quotes (src/main.rs lines 20, 29, 38).  The single-quote character is
written with its escape code. -/
def fieldMsg (fld : String) (cause : LuaError) : String :=
  "Failed to get " ++ "\x27" ++ fld ++ "\x27" ++ " field: " ++ displayError cause

/-- The error the `map_err` closures of the decoder construct around a
failed field fetch: a `FromLuaConversionError` whose source type is
`Table`, whose target type is `BenchmarkResult`, and whose message names
the field and embeds the underlying cause (src/main.rs lines 17-21,
26-30, 35-39). -/
def wrapFieldError (fld : String) (cause : LuaError) : LuaError :=
  .fromLuaConversionError "Table" "BenchmarkResult" (some (fieldMsg fld cause))

/-- `BenchmarkResult::from_lua` (src/main.rs lines 11-55): on a table,
fetch and convert `result` (f64), then `operations` (u32), then
`max_value` (f64), wrapping each failure with the field name; on any
non-table value, fail at once with the shape error built from the type
name of the value itself. -/
def from_lua (value : LuaValue) : Except LuaError BenchmarkResult :=
  match value with
  | .table t => do
      let result ← (getF64 (tableGet t "result")).mapError (wrapFieldError "result")
      let operations ← (getU32 (tableGet t "operations")).mapError (wrapFieldError "operations")
      let max_value ← (getF64 (tableGet t "max_value")).mapError (wrapFieldError "max_value")
      Except.ok ⟨result, operations, max_value⟩
  | v => Except.error (.fromLuaConversionError v.type_name "BenchmarkResult"
      (some "Expected a table with result, operations, and max_value fields"))

/-- A field-access error in the sense of the specification: the wrapped
error a failed field fetch produces, recognisable because its message
starts with `Failed to get `. -/
def isFieldAccessError : LuaError → Bool
  | .fromLuaConversionError _ _ (some m) => m.take 14 == "Failed to get "
  | .fromLuaConversionError _ _ none => false

/-- The callback `length_fast` (src/main.rs lines 61-62):
`(x * x + y * y).sqrt()`. -/
noncomputable def length_fast (x y : ℝ) : ℝ :=
  Real.sqrt (x * x + y * y)

/-- The callback `distance` (src/main.rs lines 64-68). -/
noncomputable def distance (x1 y1 x2 y2 : ℝ) : ℝ :=
  let dx := x2 - x1
  let dy := y2 - y1
  Real.sqrt (dx * dx + dy * dy)

/-- The callback `complex_calc` (src/main.rs lines 70-80). -/
noncomputable def complex_calc (angle radius : ℝ) : ℝ :=
  let x := radius * Real.cos angle
  let y := radius * Real.sin angle
  let magnitude := Real.sqrt (x * x + y * y)
  if magnitude > 10.0 then magnitude * 1.5 + |Real.tan angle|
  else magnitude * 0.8 + Real.sin angle

/-- The `complex_calc` contract exactly as the specification words it:
compute `x = radius·cos(angle)`, `y = radius·sin(angle)`,
`magnitude = sqrt(x ^ 2 + y ^ 2)`; if `magnitude > 10.0` return
`magnitude·1.5 + |tan(angle)|`, else `magnitude·0.8 + sin(angle)`. -/
noncomputable def complex_calc_spec (angle radius : ℝ) : ℝ :=
  let x := radius * Real.cos angle
  let y := radius * Real.sin angle
  let magnitude := Real.sqrt (x ^ 2 + y ^ 2)
  if magnitude > 10.0 then magnitude * 1.5 + |Real.tan angle|
  else magnitude * 0.8 + Real.sin angle

/-- The statistic `duration / result.operations` (src/main.rs line 138).
Here `duration` is the elapsed time in nanoseconds.  The Rust `Div`
implementation of `Duration` by `u32` calls `Duration::checked_div` and
panics with a divide-by-zero error when the divisor is zero; the panic is
modelled as `none`. -/
def time_per_operation (duration : Nat) (operations : Nat) : Option Nat :=
  if operations = 0 then none else some (duration / operations)

/-- The table returned by the script of `test_benchmark_result_parsing`
(src/main.rs lines 174-180): `result = 42.5` and `max_value = 99.9` are
Lua floats, `operations = 1000` is a Lua integer. -/
def test_table : List (String × LuaValue) :=
  [("result", .number 42.5), ("operations", .integer 1000), ("max_value", .number 99.9)]

/-- A table holding valid `result`, `operations` and `max_value` fields
plus an additional unused field. -/
def extra_field_table : List (String × LuaValue) :=
  [("result", .number 1), ("operations", .integer 2),
   ("max_value", .number 3), ("unused", .boolean true)]

/-- Unfolding lemma: the decoder on a table is the sequential
fetch-and-convert of `result`, `operations` and `max_value`, each failure
wrapped with its field name and short-circuiting the rest. -/
theorem from_lua_table_eq (t : List (String × LuaValue)) :
    from_lua (.table t) =
      match getF64 (tableGet t "result") with
      | .error e => .error (wrapFieldError "result" e)
      | .ok r =>
        match getU32 (tableGet t "operations") with
        | .error e => .error (wrapFieldError "operations" e)
        | .ok n =>
          match getF64 (tableGet t "max_value") with
          | .error e => .error (wrapFieldError "max_value" e)
          | .ok m => .ok ⟨r, n, m⟩ := by
  simp only [from_lua]
  cases getF64 (tableGet t "result") <;>
    cases getU32 (tableGet t "operations") <;>
      cases getF64 (tableGet t "max_value") <;> rfl

set_option maxRecDepth 10000 in
/-- C1: decoding any value that is not a structured record fails
immediately with the shape-mismatch error that reports the dynamic type
name of the actual value and the expected type name `BenchmarkResult`,
and that error is not a field-access error. -/
theorem from_lua_non_table_shape_mismatch (v : LuaValue) (h : v.isTable = false) :
    ∃ e, from_lua v = Except.error e ∧
      e = .fromLuaConversionError v.type_name "BenchmarkResult"
        (some "Expected a table with result, operations, and max_value fields") ∧
      isFieldAccessError e = false := by
  cases v with
  | nil => exact ⟨_, rfl, rfl, rfl⟩
  | boolean b => exact ⟨_, rfl, rfl, rfl⟩
  | integer n => exact ⟨_, rfl, rfl, rfl⟩
  | number q => exact ⟨_, rfl, rfl, rfl⟩
  | str s => exact ⟨_, rfl, rfl, rfl⟩
  | table t => simp [LuaValue.isTable] at h

set_option maxRecDepth 10000 in
/-- Witness for C1 at the plain number 7: decoding fails with the shape
error naming the `integer` type, never a field-access error. -/
theorem from_lua_non_table_shape_mismatch_witness :
    ∃ e, from_lua (.integer 7) = Except.error e ∧
      e = .fromLuaConversionError (LuaValue.integer 7).type_name "BenchmarkResult"
        (some "Expected a table with result, operations, and max_value fields") ∧
      isFieldAccessError e = false :=
  from_lua_non_table_shape_mismatch (.integer 7) rfl

/-- C2: the time-per-operation computation fails (is undefined, modelling
the divide-by-zero panic of the Rust duration division) exactly when
`operations = 0`; for any non-zero operation count it yields a finite
value, so it never silently produces an unbounded result. -/
theorem time_per_operation_none_iff_zero (duration operations : Nat) :
    time_per_operation duration operations = none ↔ operations = 0 := by
  unfold time_per_operation
  split <;> simp_all

/-- C3 counterexample: the claim also asserts that a fractional
`operations` value fails, but the num_traits cast truncates floats toward
zero, so decoding succeeds: `operations = 42.5` (the rational `85 / 2`)
decodes to `42`, and `operations = -0.5` (the rational `-1 / 2`) decodes
to `0`.  No error is produced at either input. -/
theorem from_lua_fractional_operations_truncates :
    from_lua (.table [("result", .number 1),
        ("operations", .number ⟨85, 2, by decide, by decide⟩),
        ("max_value", .number 2)]) = Except.ok ⟨1, 42, 2⟩ ∧
    from_lua (.table [("result", .number 1),
        ("operations", .number ⟨-1, 2, by decide, by decide⟩),
        ("max_value", .number 2)]) = Except.ok ⟨1, 0, 2⟩ :=
  ⟨rfl, rfl⟩

/-- C3 as amended: decoding a record whose `operations` field holds a
negative integer value fails with the conversion error that names the
`operations` field and whose embedded cause records the source type
`integer` (never `nil`, which distinguishes it from the missing-field
error) and the target type `u32`.  A fractional value in the range
`(-1, 2 ^ 32)` does not fail: it is truncated toward zero. -/
theorem from_lua_negative_operations_coercion_error (t : List (String × LuaValue)) (r : ℚ)
    (hres : getF64 (tableGet t "result") = Except.ok r)
    (hops : ∃ n : Int, tableGet t "operations" = .integer n ∧ n < 0) :
    from_lua (.table t) =
      Except.error (.fromLuaConversionError "Table" "BenchmarkResult"
        (some (fieldMsg "operations"
          (.fromLuaConversionError "integer" "u32" (some "out of range"))))) := by
  rw [from_lua_table_eq, hres]
  obtain ⟨n, hn, hneg⟩ := hops
  rw [hn]
  simp only [getU32, cast_int_u32]
  rw [if_neg (by omega)]
  rfl

/-- Witness for the amended C3 at a record with `operations = -5`: the
decoder produces the conversion error naming `operations` with the cause
recording source type `integer` and target type `u32`. -/
theorem from_lua_negative_operations_coercion_error_witness :
    from_lua (.table [("result", .number 1), ("operations", .integer (-5))]) =
      Except.error (.fromLuaConversionError "Table" "BenchmarkResult"
        (some (fieldMsg "operations"
          (.fromLuaConversionError "integer" "u32" (some "out of range"))))) :=
  from_lua_negative_operations_coercion_error
    [("result", .number 1), ("operations", .integer (-5))] 1 rfl ⟨-5, rfl, by decide⟩

/-- C4: decoding a record that lacks the `operations` field (and whose
`result` field converts) fails with the field-access error that names
`operations` and embeds the underlying cause, namely the failed
conversion of the `nil` lookup result to `u32`. -/
theorem from_lua_missing_operations_field_error (t : List (String × LuaValue)) (r : ℚ)
    (hres : getF64 (tableGet t "result") = Except.ok r)
    (hmiss : t.lookup "operations" = none) :
    from_lua (.table t) =
      Except.error (.fromLuaConversionError "Table" "BenchmarkResult"
        (some (fieldMsg "operations" (.fromLuaConversionError "nil" "u32"
          (some "expected number or string coercible to integer"))))) := by
  have hop : tableGet t "operations" = .nil := by simp [tableGet, hmiss]
  rw [from_lua_table_eq, hres, hop]
  rfl

/-- Witness for C4 at a record holding only `result` and `max_value`. -/
theorem from_lua_missing_operations_field_error_witness :
    from_lua (.table [("result", .number 1), ("max_value", .number 2)]) =
      Except.error (.fromLuaConversionError "Table" "BenchmarkResult"
        (some (fieldMsg "operations" (.fromLuaConversionError "nil" "u32"
          (some "expected number or string coercible to integer"))))) :=
  from_lua_missing_operations_field_error [("result", .number 1), ("max_value", .number 2)] 1
    rfl rfl

/-- C5: decoding the well-formed record of the parsing test, with
`result = 42.5`, `operations = 1000` and `max_value = 99.9`, succeeds and
yields exactly those field values. -/
theorem from_lua_well_formed_record :
    from_lua (.table test_table) = Except.ok ⟨42.5, 1000, 99.9⟩ := rfl

/-- C6: decoding is all-or-nothing; whenever the decoder returns a
record, the input was a table and every one of the three fields was
fetched and converted successfully, the record being populated from
exactly those three conversions. -/
theorem from_lua_all_or_nothing (v : LuaValue) (r : BenchmarkResult)
    (h : from_lua v = Except.ok r) :
    ∃ t, v = .table t ∧
      getF64 (tableGet t "result") = Except.ok r.result ∧
      getU32 (tableGet t "operations") = Except.ok r.operations ∧
      getF64 (tableGet t "max_value") = Except.ok r.max_value := by
  cases v with
  | table t =>
      refine ⟨t, rfl, ?_⟩
      rw [from_lua_table_eq] at h
      split at h
      · cases h
      · split at h
        · cases h
        · split at h
          · cases h
          · cases h
            exact ⟨by assumption, by assumption, by assumption⟩
  | nil => cases h
  | boolean b => cases h
  | integer n => cases h
  | number q => cases h
  | str s => cases h

/-- Witness for C6 at the parsing-test table and its decoded record. -/
theorem from_lua_all_or_nothing_witness :
    ∃ t, LuaValue.table test_table = .table t ∧
      getF64 (tableGet t "result") = Except.ok (42.5 : ℚ) ∧
      getU32 (tableGet t "operations") = Except.ok 1000 ∧
      getF64 (tableGet t "max_value") = Except.ok (99.9 : ℚ) :=
  from_lua_all_or_nothing (.table test_table) ⟨42.5, 1000, 99.9⟩ rfl

/-- C7: `length_fast` returns the square root of the sum of squares of
its arguments; in particular it is `0` at the origin and `5` (well within
the tolerance `1e-10`) at `(3, 4)`. -/
theorem length_fast_correct :
    (∀ x y : ℝ, length_fast x y = Real.sqrt (x ^ 2 + y ^ 2)) ∧
      length_fast 0 0 = 0 ∧ |length_fast 3 4 - 5.0| < 1e-10 := by
  refine ⟨fun x y => by rw [length_fast]; congr 1; ring, ?_, ?_⟩
  · rw [length_fast]
    norm_num
  · have h5 : length_fast 3 4 = 5 := by
      rw [length_fast, show (3 : ℝ) * 3 + 4 * 4 = 5 ^ 2 by norm_num,
        Real.sqrt_sq (by norm_num : (0 : ℝ) ≤ 5)]
    rw [h5]
    norm_num

/-- C8: `distance` is symmetric under swapping the two points. -/
theorem distance_swap_symmetric (x1 y1 x2 y2 : ℝ) :
    distance x1 y1 x2 y2 = distance x2 y2 x1 y1 := by
  simp only [distance]
  congr 1
  ring

/-- C9: `complex_calc` computes exactly the piecewise magnitude-based
formula of the specification. -/
theorem complex_calc_matches_spec_formula (angle radius : ℝ) :
    complex_calc angle radius = complex_calc_spec angle radius := by
  simp only [complex_calc, complex_calc_spec]
  rw [show radius * Real.cos angle * (radius * Real.cos angle) +
      radius * Real.sin angle * (radius * Real.sin angle) =
      (radius * Real.cos angle) ^ 2 + (radius * Real.sin angle) ^ 2 from by ring]

/-- C10: the decoder ignores extra fields; any table whose `result`,
`operations` and `max_value` fields convert successfully decodes to the
record built from exactly those three conversions, no matter which other
fields are present. -/
theorem from_lua_ignores_extra_fields (t : List (String × LuaValue)) (r m : ℚ) (n : Nat)
    (h1 : getF64 (tableGet t "result") = Except.ok r)
    (h2 : getU32 (tableGet t "operations") = Except.ok n)
    (h3 : getF64 (tableGet t "max_value") = Except.ok m) :
    from_lua (.table t) = Except.ok ⟨r, n, m⟩ := by
  rw [from_lua_table_eq, h1, h2, h3]

/-- Witness for C10 at a table carrying an additional `unused` field. -/
theorem from_lua_ignores_extra_fields_witness :
    from_lua (.table extra_field_table) = Except.ok ⟨1, 2, 3⟩ :=
  from_lua_ignores_extra_fields extra_field_table 1 3 2 rfl rfl rfl

end EntityEngine
